import Mathlib

/-!
Shallow embedding of the server-availability reconnection core of
`src/src/App.jsx` (the `App` component of the `ai_agent_ui` repository).

Modelling conventions:
* React state hooks (lines 5-15 of App.jsx) become fields of `AppState`.
  View-only hooks (`typingIndicator`, `showLeads`, `recentLeads`, `theme`)
  are omitted: no claim mentions them and they feed only the markup.
* Message timestamps (`new Date().toISOString()`) are environment clock
  values inspected by no claim; the `timestamp` field is omitted from `Msg`.
* Every `fetch` is replaced by an explicit outcome value describing what the
  awaited promise did: resolve with an HTTP status, reject with a network
  error, or reject with a timeout abort.  A resolved response whose body is
  later parsed is modelled with its parsed JSON fields, following the
  backend interface table of the spec (non-2xx chat responses carry
  `{error}` JSON).  An `ok` response whose body fails to parse throws at
  `.json()` and lands in the same `catch` block as a network error, so in
  `wakeUpServer` it is represented by `ProbeOutcome.netErr`.
-/

namespace AiAgentUi

/-- The four values the `serverStatus` React state takes in App.jsx:
`'checking' | 'waking' | 'ready' | 'error'`. -/
inductive Status
  | checking
  | waking
  | ready
  | error
deriving DecidableEq

/-- A chat message as built throughout App.jsx: a sender tag (`'user'` or
`'ai'`), the text, and the optional `responseTime` badge field.  The
`timestamp` field of the source is an environment clock value and is
omitted (no claim concerns it). -/
structure Msg where
  sender : String
  text : String
  responseTime : Option Nat := none
deriving DecidableEq

/-- The core React state of the `App` component (App.jsx lines 5-15),
restricted to the fields the reconnection core reads or writes. -/
structure AppState where
  serverStatus : Status
  messages : List Msg
  input : String
  loading : Bool
  sessionId : Option String
  wakeAttempts : Nat
  connectionError : Option String
deriving DecidableEq

/-- The initial hook values of App.jsx lines 5-15. -/
def initialState : AppState :=
  { serverStatus := Status.checking
    messages := []
    input := ""
    loading := false
    sessionId := none
    wakeAttempts := 0
    connectionError := none }

/-- Outcome of one health-probe `fetch` against `/api/health`:
* `success`  — the promise resolved with `response.ok` and (in
  `wakeUpServer`) the body parsed;
* `httpErr`  — the promise resolved but `response.ok` is false
  (a non-2xx status); `fetch` does not throw in this case;
* `netErr`   — the promise rejected with a network-level failure
  (also stands for an ok response whose `.json()` throws);
* `timeoutErr` — the promise rejected with the `AbortError` raised by the
  timeout controller. -/
inductive ProbeOutcome
  | success
  | httpErr
  | netErr
  | timeoutErr
deriving DecidableEq

/-- Welcome message installed by `wakeUpServer` on a successful probe
(App.jsx lines 192-196). -/
def welcomeWake : Msg :=
  { sender := "ai", text := "👋 Namaste! Main aapka AI Agent hu. Kaise help kar sakta hu?" }

/-- Welcome message installed by `checkServerHealth` when a probe succeeds
while the status is not `ready` (App.jsx lines 113-117). -/
def welcomeBack : Msg :=
  { sender := "ai", text := "👋 Server wapas aa gaya! Kaise help karu?" }

/-- Observable side effects of one `wakeUpServer` run: the backoff sleeps
(`await new Promise(... setTimeout ..., waitTime)`, line 214) in order, and
the number of `triggerWakeUp()` invocations (line 205). -/
structure WakeTrace where
  delays : List Nat
  wakeTriggerCalls : Nat
deriving DecidableEq

/-- `const maxRetries = 5` (App.jsx line 172). -/
def maxRetries : Nat := 5

/-- `const baseDelay = 3000` (App.jsx line 173). -/
def baseDelay : Nat := 3000

/-- State effects of the `catch` block of one failed (throwing) probe in
`wakeUpServer` (App.jsx lines 199-215), entered with the current value of
`retries`: on the first failure set status `'waking'` (line 204); then with
the incremented counter, if another attempt remains, record the
`connectionError` progress string (line 213). -/
def failState (r : Nat) (s : AppState) : AppState :=
  let s1 := if r = 0 then { s with serverStatus := Status.waking } else s
  let progressMsg := "Wake attempt " ++ toString (r + 1) ++ "/" ++ toString maxRetries ++ "..."
  if r + 1 < maxRetries then
    { s1 with connectionError := some progressMsg }
  else s1

/-- Trace effects of the same `catch` block: the first failure invokes
`triggerWakeUp` (line 205); if another attempt remains the loop sleeps for
`baseDelay * 2 ^ (retries - 1)` ms (lines 212-214) with `retries` already
incremented to `r + 1`. -/
def failTrace (r : Nat) (tr : WakeTrace) : WakeTrace :=
  let tr1 := if r = 0 then { tr with wakeTriggerCalls := tr.wakeTriggerCalls + 1 } else tr
  if r + 1 < maxRetries then
    { tr1 with delays := tr1.delays ++ [baseDelay * 2 ^ r] }
  else tr1

/-- The `while (retries < maxRetries)` loop of `wakeUpServer` (App.jsx
lines 175-217 plus the epilogue 219-221), consuming one probe outcome per
iteration of the loop body:
* `response.ok` (lines 188-197): set status `'ready'`, reset
  `wakeAttempts` to 0, replace `messages` with the welcome message, and
  `return true`;
* a resolved non-ok response: the `if (healthRes.ok)` test fails, no
  statement of the `catch` block runs, and the loop repeats with `retries`
  unchanged;
* a rejected promise: run the `catch` block (`failState` / `failTrace`)
  and continue with `retries + 1`.
When the loop condition fails, lines 219-221 set status `'error'` with the
terminal message and `return false`.  The third component is `none` when
the supplied outcome list was exhausted while the loop was still running
(the loop demands another probe). -/
def wakeLoopGo : Nat → AppState → WakeTrace → List ProbeOutcome →
    AppState × WakeTrace × Option Bool
  | r, s, tr, probes =>
    if r < maxRetries then
      match probes with
      | [] => (s, tr, none)
      | ProbeOutcome.success :: _ =>
          ({ s with serverStatus := Status.ready
                    wakeAttempts := 0
                    messages := [welcomeWake] }, tr, some true)
      | ProbeOutcome.httpErr :: rest => wakeLoopGo r s tr rest
      | ProbeOutcome.netErr :: rest => wakeLoopGo (r + 1) (failState r s) (failTrace r tr) rest
      | ProbeOutcome.timeoutErr :: rest => wakeLoopGo (r + 1) (failState r s) (failTrace r tr) rest
    else
      ({ s with serverStatus := Status.error
                connectionError := some "Server wake failed after multiple attempts" },
       tr, some false)

/-- `wakeUpServer` (App.jsx lines 167-222): clear `connectionError`,
increment `wakeAttempts` (lines 168-169), then run the retry loop with
`retries = 0`. -/
def wakeUpServer (probes : List ProbeOutcome) (s : AppState) :
    AppState × WakeTrace × Option Bool :=
  wakeLoopGo 0 { s with connectionError := none, wakeAttempts := s.wakeAttempts + 1 }
    { delays := [], wakeTriggerCalls := 0 } probes

/-- `checkServerHealth` (App.jsx lines 97-125): on `response.ok` with
status not `'ready'`, set `'ready'` and replace the message list with the
`welcomeBack` message, returning `true`; on an ok response while already
ready, return `true` with no change; a non-ok response falls through to
`return false`; a rejected promise is caught, logged, and also reaches
`return false`.  It never touches `wakeAttempts` or `sessionId`. -/
def checkServerHealth (o : ProbeOutcome) (s : AppState) : AppState × Bool :=
  match o with
  | ProbeOutcome.success =>
      if s.serverStatus ≠ Status.ready then
        ({ s with serverStatus := Status.ready, messages := [welcomeBack] }, true)
      else (s, true)
  | _ => (s, false)

/-- Outcome of a single generic `fetch`: a resolved response carrying its
HTTP status code, a network-level rejection, or a timeout abort. -/
inductive FetchOutcome
  | resp (status : Nat)
  | netErr
  | timeoutErr
deriving DecidableEq

/-- Whether the awaited `fetch` promise rejected (threw). -/
def FetchOutcome.throws : FetchOutcome → Bool
  | FetchOutcome.resp _ => false
  | _ => true

/-- `response.ok` of the Fetch API: status in the range 200-299. -/
def respOk (status : Nat) : Bool := 200 ≤ status && status ≤ 299

/-- What one `triggerWakeUp` call did: the boolean it returned, and whether
the fallback `/api/trigger-wake?token=...` request was issued. -/
structure WakeSignalResult where
  sent : Bool
  fallbackAttempted : Bool
deriving DecidableEq

/-- `triggerWakeUp` (App.jsx lines 128-164): try the primary `/api/wake`
request (10s timeout).  If it resolves ok, return `true`; if it resolves
non-ok, fall out of the `try` block — no `catch` runs, the fallback is
never issued — and reach `return false`.  Only when the primary request
*throws* does the `catch` block issue the fallback request and return
`true` exactly when that one resolves ok; a throwing fallback is swallowed
by the inner `catch`.  Every path returns a boolean. -/
def triggerWakeUp (primary fallback : FetchOutcome) : WakeSignalResult :=
  match primary with
  | FetchOutcome.resp st =>
      if respOk st then { sent := true, fallbackAttempted := false }
      else { sent := false, fallbackAttempted := false }
  | _ =>
      match fallback with
      | FetchOutcome.resp st =>
          if respOk st then { sent := true, fallbackAttempted := true }
          else { sent := false, fallbackAttempted := true }
      | _ => { sent := false, fallbackAttempted := true }

/-- `sendKeepAlive` (App.jsx lines 51-74): early-return unless the status
is `'ready'` (line 52).  The response of the `/api/keep-alive` POST is
never inspected — any resolved response just logs.  Only a rejected
promise reaches the `catch` block, which (re-checking `serverStatus ===
'ready'`, line 69) sets the status to `'checking'` and calls
`wakeUpServer()`.  The boolean records whether `wakeUpServer` was
invoked. -/
def sendKeepAlive (o : FetchOutcome) (serverStatus : Status) : Status × Bool :=
  if serverStatus ≠ Status.ready then (serverStatus, false)
  else
    match o with
    | FetchOutcome.resp _ => (serverStatus, false)
    | _ =>
        if serverStatus = Status.ready then (Status.checking, true)
        else (serverStatus, false)

/-- Outcome of the `/api/session/init` POST in `initSession`:
a resolved response (`bodyParses` tells whether `.json()` succeeded;
`sessionIdField` is the optional `sessionId` of the parsed body — note the
code never checks `response.ok`, App.jsx line 253), or a rejection. -/
inductive SessionOutcome
  | resp (bodyParses : Bool) (sessionIdField : Option String)
  | netErr
  | timeoutErr
deriving DecidableEq

/-- Whether session acquisition fails, i.e. reaches the `catch` block of
`initSession`: a rejected fetch, or a body that fails to parse. -/
def SessionOutcome.fails : SessionOutcome → Bool
  | SessionOutcome.resp ok _ => !ok
  | _ => true

/-- `initSession` (App.jsx lines 238-258): early-return unless the status
is `'ready'` (line 239); on a resolved, parsed response store
`data.sessionId` (line 254); on any throw, only `console.error` runs — no
state field is written. -/
def initSession (o : SessionOutcome) (s : AppState) : AppState :=
  if s.serverStatus ≠ Status.ready then s
  else
    match o with
    | SessionOutcome.resp true sid => { s with sessionId := sid }
    | _ => s

/-- Outcome of the `/api/chat` POST in `sendMessage`:
* `resp` — the promise resolved and the body parsed, carrying the status
  and the parsed JSON fields used by the code (`reply`, `error`,
  `sessionId`, `responseTime`), per the backend interface table of the
  spec;
* `abortErr` — rejected with the timeout controller's `AbortError`;
* `fetchFail` — rejected with a network-level failure whose message
  contains `'Failed to fetch'`;
* `otherErr` — any other exception (neither an `AbortError` nor a
  `'Failed to fetch'` message). -/
inductive ChatOutcome
  | resp (status : Nat) (reply : String) (errText : Option String)
      (respSessionId : Option String) (respTime : Option Nat)
  | abortErr
  | fetchFail
  | otherErr
deriving DecidableEq

/-- JavaScript `String.prototype.trim`: strip whitespace from both ends,
written over the character list so that it evaluates by kernel
reduction. -/
def jsTrim (s : String) : String :=
  String.mk (((s.data.dropWhile Char.isWhitespace).reverse.dropWhile Char.isWhitespace).reverse)

/-- The user's message appended at the start of `sendMessage`
(App.jsx lines 266-272). -/
def userMsgOf (s : AppState) : Msg :=
  { sender := "user", text := jsTrim s.input }

/-- Placeholder appended when a chat failure is classified as
"backend asleep" (App.jsx lines 313-317 and 333-337). -/
def placeholderAsleep : Msg :=
  { sender := "ai", text := "😴 Server so raha hai. Wake up kar raha hu... 30 sec wait karo." }

/-- Generic connectivity message of the last `catch` branch
(App.jsx lines 341-345). -/
def genericConnErr : Msg :=
  { sender := "ai", text := "❌ Connection error. Internet check karo." }

/-- `sendMessage` (App.jsx lines 263-351): guard (line 264), append the
user message and clear the input (lines 272-275), then on the fetch
outcome:
* `response.ok`: append the reply (with `responseTime`), update
  `sessionId` when the body carries one (lines 298-308);
* status 503 or 504: set `'waking'`, append the fixed placeholder, call
  `wakeUpServer` (lines 311-318);
* any other non-ok status: append `'❌ ' + (data.error || 'Kuch error
  hua')` and change no status (lines 320-324);
* `AbortError` or a `'Failed to fetch'` message: same "asleep" handling
  as 503/504 (lines 330-338);
* any other exception: append the generic connectivity message
  (lines 341-345).
The `finally` block clears `loading` (line 348).  The boolean records
whether `wakeUpServer` was invoked. -/
def sendMessage (o : ChatOutcome) (s : AppState) : AppState × Bool :=
  if jsTrim s.input = "" ∨ s.serverStatus ≠ Status.ready ∨ s.loading = true then (s, false)
  else
    let s0 := { s with messages := s.messages ++ [userMsgOf s], input := "", loading := true }
    let step : AppState × Bool :=
      match o with
      | ChatOutcome.resp status reply errText rsid rtime =>
          if respOk status then
            let s1 := { s0 with messages :=
              s0.messages ++ [{ sender := "ai", text := reply, responseTime := rtime }] }
            (match rsid with
             | some sid => ({ s1 with sessionId := some sid }, false)
             | none => (s1, false))
          else if status = 503 ∨ status = 504 then
            ({ s0 with serverStatus := Status.waking
                       messages := s0.messages ++ [placeholderAsleep] }, true)
          else
            ({ s0 with messages :=
                s0.messages ++ [{ sender := "ai", text := "❌ " ++ errText.getD "Kuch error hua" }] },
             false)
      | ChatOutcome.abortErr =>
          ({ s0 with serverStatus := Status.waking
                     messages := s0.messages ++ [placeholderAsleep] }, true)
      | ChatOutcome.fetchFail =>
          ({ s0 with serverStatus := Status.waking
                     messages := s0.messages ++ [placeholderAsleep] }, true)
      | ChatOutcome.otherErr =>
          ({ s0 with messages := s0.messages ++ [genericConnErr] }, false)
    ({ step.1 with loading := false }, step.2)

/-- The eight `fetch` call sites of App.jsx. -/
inductive NetworkCall
  | keepAlive
  | recheckHealth
  | wakePrimary
  | wakeFallback
  | wakeLoopHealth
  | sessionInit
  | chat
  | leadsRecent
deriving DecidableEq

/-- The timeout (ms) installed via `AbortController` + `setTimeout` +
`signal` at each `fetch` call site, transcribed from the source:
keep-alive 5000 (lines 55-61), `checkServerHealth` 5000 (lines 99-105),
primary wake 10000 (lines 130-137), the fallback wake `fetch` at lines
150-153 passes **no** `signal` and installs no timer, `wakeUpServer`'s
probe 8000 (lines 177-184), session init 10000 (lines 242-249), chat
30000 (lines 279-290), leads 10000 (lines 355-360). -/
def timeoutMs : NetworkCall → Option Nat
  | NetworkCall.keepAlive => some 5000
  | NetworkCall.recheckHealth => some 5000
  | NetworkCall.wakePrimary => some 10000
  | NetworkCall.wakeFallback => none
  | NetworkCall.wakeLoopHealth => some 8000
  | NetworkCall.sessionInit => some 10000
  | NetworkCall.chat => some 30000
  | NetworkCall.leadsRecent => some 10000

/-- One in-flight `wakeUpServer` invocation, identified by the value of
its local `retries` variable.  Each call of the `async` function
`wakeUpServer` keeps its own `retries` and suspends at its awaits (the
probe fetch and the backoff sleep); nothing in App.jsx records whether
such a call is already running. -/
structure WakeCycle where
  retries : Nat
deriving DecidableEq

/-- Event-loop view of the component for the single-flight question: the
shared `serverStatus` plus the list of `wakeUpServer` invocations
currently suspended at an await. -/
structure Sys where
  serverStatus : Status
  cycles : List WakeCycle
deriving DecidableEq

/-- Number of `wakeUpServer` cycles currently in flight. -/
def inFlight (g : Sys) : Nat := g.cycles.length

/-- `manualWakeUp` (App.jsx lines 379-382): set `'waking'` and call
`wakeUpServer()` unconditionally — no field of the program records an
in-flight cycle and no guard is consulted, so a fresh cycle starts
alongside any existing ones. -/
def manualWakeUp (g : Sys) : Sys :=
  { g with serverStatus := Status.waking, cycles := g.cycles ++ [{ retries := 0 }] }

/-- The mount effect (App.jsx line 226) starting the automatic cycle. -/
def mountWakeUp (g : Sys) : Sys :=
  { g with cycles := g.cycles ++ [{ retries := 0 }] }

/-- Cycle `i`'s awaited probe rejects: its `catch` block (App.jsx lines
199-215) runs — first failure sets the shared status to `'waking'` — and
the cycle suspends in its backoff sleep with `retries` incremented. -/
def cycleProbeFails (i : Nat) (g : Sys) : Sys :=
  match g.cycles.get? i with
  | none => g
  | some c =>
      let g1 := if c.retries = 0 then { g with serverStatus := Status.waking } else g
      { g1 with cycles := g1.cycles.set i { retries := c.retries + 1 } }

/-- The state in which the component mounts: status `'checking'`, no cycle
started yet. -/
def initSys : Sys := { serverStatus := Status.checking, cycles := [] }

/-! ## Theorems -/

/-- A probe that resolves with a non-ok status leaves `retries`, the
state, and the trace untouched, so the loop repeats unchanged: after any
number of such probes the loop is still running (`none`). -/
theorem wakeLoopGo_httpErr_replicate (n : Nat) (r : Nat) (s : AppState) (tr : WakeTrace)
    (h : r < maxRetries) :
    wakeLoopGo r s tr (List.replicate n ProbeOutcome.httpErr) = (s, tr, none) := by
  induction n with
  | zero => simp [wakeLoopGo, h]
  | succ k ih => simpa [wakeLoopGo, h, List.replicate_succ] using ih

/-- C1: the claim says a single `wakeUpServer` cycle terminates after at
most 5 probe attempts for every outcome sequence, including non-success
HTTP statuses.  The code increments `retries` only in the `catch` block,
so a probe that resolves with a non-ok status repeats the loop body with
`retries` unchanged and no delay: for every `n`, after `n` such probes the
cycle is still running — it never reaches `'ready'` or `'error'`. -/
theorem wakeUpServer_http_errors_never_terminate (n : Nat) (s : AppState) :
    wakeUpServer (List.replicate n ProbeOutcome.httpErr) s
      = ({ s with connectionError := none, wakeAttempts := s.wakeAttempts + 1 },
         { delays := [], wakeTriggerCalls := 0 }, none) := by
  unfold wakeUpServer
  exact wakeLoopGo_httpErr_replicate n 0 _ _ (by decide)

/-- C2: the claim says any run in which all 5 probes fail ends in
`'error'` after exactly the 4 delays 3000, 6000, 12000, 24000 ms.  When
the 5 probes fail by resolving with a non-ok HTTP status, the cycle
instead observes no delay at all, never reaches `'error'`, and is still
demanding further probes after consuming all five. -/
theorem wakeUpServer_five_http_errors_stuck :
    wakeUpServer (List.replicate 5 ProbeOutcome.httpErr) initialState
      = ({ initialState with wakeAttempts := 1 },
         { delays := [], wakeTriggerCalls := 0 }, none) := by
  decide

/-- C3: the claim says that when the first probe fails and the second
succeeds, the Wake Trigger is invoked exactly once.  When the first probe
fails by resolving with a non-ok HTTP status, the `catch` block never
runs: the cycle ends `'ready'` with the welcome message and the counter
reset, but `triggerWakeUp` was invoked zero times and the status never
passed through `'waking'`. -/
theorem wakeUpServer_http_error_then_success_no_trigger :
    wakeUpServer [ProbeOutcome.httpErr, ProbeOutcome.success] initialState
      = ({ initialState with serverStatus := Status.ready, messages := [welcomeWake] },
         { delays := [], wakeTriggerCalls := 0 }, some true) := by
  decide

/-- C4: failure classification of `sendMessage`, from a `'ready'` state
that passes the send guard.  A 503/504 response, a timeout abort, or a
`'Failed to fetch'` network failure each set `'waking'`, append the fixed
placeholder (the backend's `error` payload `e` does not occur in the
appended text), and invoke `wakeUpServer`; any other non-ok status
appends `'❌ ' + error-text` and neither changes the status nor invokes
`wakeUpServer`; any other exception appends the generic connectivity
message without reconnection. -/
theorem sendMessage_failure_classification (s : AppState)
    (hin : ¬ jsTrim s.input = "") (hr : s.serverStatus = Status.ready)
    (hl : s.loading = false) :
    (∀ st reply e rsid rt, st = 503 ∨ st = 504 →
        sendMessage (ChatOutcome.resp st reply e rsid rt) s
          = ({ s with serverStatus := Status.waking
                      messages := s.messages ++ [userMsgOf s, placeholderAsleep]
                      input := "", loading := false }, true))
    ∧ (sendMessage ChatOutcome.abortErr s
          = ({ s with serverStatus := Status.waking
                      messages := s.messages ++ [userMsgOf s, placeholderAsleep]
                      input := "", loading := false }, true))
    ∧ (sendMessage ChatOutcome.fetchFail s
          = ({ s with serverStatus := Status.waking
                      messages := s.messages ++ [userMsgOf s, placeholderAsleep]
                      input := "", loading := false }, true))
    ∧ (∀ st reply e rsid rt, respOk st = false → ¬ st = 503 → ¬ st = 504 →
        sendMessage (ChatOutcome.resp st reply (some e) rsid rt) s
          = ({ s with messages := s.messages ++
                        [userMsgOf s, { sender := "ai", text := "❌ " ++ e }]
                      input := "", loading := false }, false))
    ∧ (sendMessage ChatOutcome.otherErr s
          = ({ s with messages := s.messages ++ [userMsgOf s, genericConnErr]
                      input := "", loading := false }, false)) := by
  refine ⟨?_, ?_, ?_, ?_, ?_⟩
  · intro st reply e rsid rt hst
    have hok : respOk st = false := by
      rcases hst with h | h <;> subst h <;> decide
    simp [sendMessage, hin, hr, hl, hok, hst]
  · simp [sendMessage, hin, hr, hl]
  · simp [sendMessage, hin, hr, hl]
  · intro st reply e rsid rt hok h3 h4
    simp [sendMessage, hin, hr, hl, hok, h3, h4, Option.getD]
  · simp [sendMessage, hin, hr, hl]

/-- A `'ready'` state with a pending input, used to instantiate the
hypothesis-bearing theorems at a concrete point. -/
def readyState : AppState :=
  { initialState with serverStatus := Status.ready, input := "hi" }

/-- Witness for C4: a 503 chat response at the concrete ready state. -/
theorem sendMessage_failure_classification_witness :
    sendMessage (ChatOutcome.resp 503 "" none none none) readyState
      = ({ readyState with serverStatus := Status.waking
                           messages := readyState.messages ++ [userMsgOf readyState, placeholderAsleep]
                           input := "", loading := false }, true) :=
  (sendMessage_failure_classification readyState (by decide) rfl rfl).1
    503 "" none none none (Or.inl rfl)

/-- C5 counterexample: a concrete run refuting "at most one Reconnection
Driver cycle is in flight at any time".  The automatic cycle started on
mount fails its first probe (entering `'waking'`, one cycle in flight,
suspended in its 3000 ms backoff sleep); the user presses the retry
button; `manualWakeUp` starts a second `wakeUpServer` invocation, so two
cycles are now in flight against the same target. -/
theorem manualWakeUp_second_cycle_trace :
    inFlight (cycleProbeFails 0 (mountWakeUp initSys)) = 1
    ∧ (cycleProbeFails 0 (mountWakeUp initSys)).serverStatus = Status.waking
    ∧ inFlight (manualWakeUp (cycleProbeFails 0 (mountWakeUp initSys))) = 2 := by
  decide

/-- C5 (amended): `manualWakeUp` contains no single-flight guard — it
reads no field recording an in-flight cycle — so triggering a manual
retry while one cycle is in flight always leaves two cycles in flight. -/
theorem manualWakeUp_no_single_flight (g : Sys)
    (h1 : g.serverStatus = Status.waking) (h2 : inFlight g = 1) :
    inFlight (manualWakeUp g) = 2 := by
  clear h1
  simp [manualWakeUp, inFlight] at h2 ⊢
  omega

/-- Witness for the amended C5. -/
theorem manualWakeUp_no_single_flight_witness :
    inFlight (manualWakeUp { serverStatus := Status.waking, cycles := [{ retries := 1 }] }) = 2 :=
  manualWakeUp_no_single_flight
    { serverStatus := Status.waking, cycles := [{ retries := 1 }] } rfl rfl

/-- C6 counterexample: when the primary wake request resolves with a
non-success status (here 500), `triggerWakeUp` falls out of its `try`
block without entering the `catch`, so the fallback endpoint is *not*
attempted (even though the fallback itself would have succeeded), and the
function returns `false`. -/
theorem triggerWakeUp_http_error_skips_fallback :
    triggerWakeUp (FetchOutcome.resp 500) (FetchOutcome.resp 200)
      = { sent := false, fallbackAttempted := false } := by
  decide

/-- C6 (amended): the fallback request is attempted exactly when the
primary wake request throws (network error or timeout); a primary
response with a non-success status returns `false` without attempting the
fallback; and on a resolved primary the returned boolean is exactly
`response.ok` — every path returns a boolean. -/
theorem triggerWakeUp_fallback_iff_primary_throws (p f : FetchOutcome) (st : Nat) :
    ((triggerWakeUp p f).fallbackAttempted = p.throws)
    ∧ triggerWakeUp (FetchOutcome.resp st) f
        = { sent := respOk st, fallbackAttempted := false } := by
  constructor
  · cases p <;> cases f <;> simp [triggerWakeUp, FetchOutcome.throws] <;>
      split <;> simp
  · cases hb : respOk st <;> simp [triggerWakeUp, hb]

/-- C7: `sendKeepAlive` issued while `'ready'`: a resolved response of
*any* status changes nothing and does not invoke `wakeUpServer`; a
network error or timeout demotes the status to `'checking'` and invokes
`wakeUpServer`. -/
theorem sendKeepAlive_any_response_is_success (st : Nat) :
    sendKeepAlive (FetchOutcome.resp st) Status.ready = (Status.ready, false)
    ∧ sendKeepAlive FetchOutcome.netErr Status.ready = (Status.checking, true)
    ∧ sendKeepAlive FetchOutcome.timeoutErr Status.ready = (Status.checking, true) := by
  refine ⟨rfl, rfl, rfl⟩

/-- C8 counterexample: the fallback wake `fetch` (App.jsx lines 150-153)
passes no abort signal and installs no timer — it carries no
timeout-based cancellation token. -/
theorem wakeFallback_has_no_timeout :
    timeoutMs NetworkCall.wakeFallback = none := by decide

/-- C8 (amended): every `fetch` call site of the core except the fallback
wake signal carries its own timeout-based cancellation token. -/
theorem all_calls_have_timeout_except_fallback (c : NetworkCall)
    (h : ¬ c = NetworkCall.wakeFallback) :
    (timeoutMs c).isSome = true := by
  cases c <;> simp [timeoutMs] at h ⊢

/-- Witness for the amended C8: the chat call site. -/
theorem all_calls_have_timeout_except_fallback_witness :
    (timeoutMs NetworkCall.chat).isSome = true :=
  all_calls_have_timeout_except_fallback NetworkCall.chat (by decide)

/-- C9: when session acquisition fails (the fetch rejects or the body
fails to parse), `initSession` writes nothing: the status stays
`'ready'`, the stored `sessionId` is unchanged, and in particular a
previously absent session id stays absent — subsequent chat requests
proceed with it. -/
theorem initSession_failure_keeps_ready (o : SessionOutcome) (s : AppState)
    (hr : s.serverStatus = Status.ready) (hf : o.fails = true) :
    (initSession o s).serverStatus = Status.ready
    ∧ (initSession o s).sessionId = s.sessionId
    ∧ (s.sessionId = none → (initSession o s).sessionId = none) := by
  have he : initSession o s = s := by
    cases o with
    | resp ok sid =>
        cases ok with
        | true => simp [SessionOutcome.fails] at hf
        | false => simp [initSession, hr]
    | netErr => simp [initSession, hr]
    | timeoutErr => simp [initSession, hr]
  rw [he]
  exact ⟨hr, rfl, fun h => h⟩

/-- Witness for C9: a timed-out session init at the concrete ready
state. -/
theorem initSession_failure_keeps_ready_witness :
    (initSession SessionOutcome.timeoutErr readyState).serverStatus = Status.ready
    ∧ (initSession SessionOutcome.timeoutErr readyState).sessionId = none :=
  ⟨(initSession_failure_keeps_ready SessionOutcome.timeoutErr readyState rfl rfl).1,
   (initSession_failure_keeps_ready SessionOutcome.timeoutErr readyState rfl rfl).2.2 rfl⟩

/-- Every run of the wake loop that returns `true` (a successful probe)
ends with the message list replaced by the single welcome message, the
status `'ready'`, and the attempt counter 0, whatever the prior state. -/
theorem wakeLoopGo_some_true (probes : List ProbeOutcome) :
    ∀ (r : Nat) (s s1 : AppState) (tr tr1 : WakeTrace),
      wakeLoopGo r s tr probes = (s1, tr1, some true) →
      s1.messages = [welcomeWake] ∧ s1.serverStatus = Status.ready ∧ s1.wakeAttempts = 0 := by
  induction probes with
  | nil =>
      intro r s s1 tr tr1 h
      by_cases hr : r < maxRetries
      · simp [wakeLoopGo, hr] at h
      · simp [wakeLoopGo, hr] at h
  | cons o rest ih =>
      intro r s s1 tr tr1 h
      by_cases hr : r < maxRetries
      · cases o with
        | success =>
            rw [wakeLoopGo] at h
            simp only [hr, if_true, Prod.mk.injEq] at h
            obtain ⟨h1, _, _⟩ := h
            rw [← h1]
            exact ⟨rfl, rfl, rfl⟩
        | httpErr => exact ih _ _ _ _ _ (by simpa [wakeLoopGo, hr] using h)
        | netErr => exact ih _ _ _ _ _ (by simpa [wakeLoopGo, hr] using h)
        | timeoutErr => exact ih _ _ _ _ _ (by simpa [wakeLoopGo, hr] using h)
      · rw [wakeLoopGo.eq_def] at h
        simp [hr] at h

/-- C10: every transition into `'ready'` driven by a successful health
probe replaces the entire message list with a single welcome message,
whatever conversation history the prior state held: a `wakeUpServer` run
that returns `true` ends with `messages = [welcomeWake]`, and a
`checkServerHealth` success from a non-ready state ends with
`messages = [welcomeBack]` — in neither case is the welcome appended to
the old list. -/
theorem ready_transition_replaces_messages (probes : List ProbeOutcome)
    (s s1 : AppState) (tr1 : WakeTrace)
    (hw : wakeUpServer probes s = (s1, tr1, some true))
    (t : AppState) (ht : ¬ t.serverStatus = Status.ready) :
    s1.messages = [welcomeWake] ∧ s1.serverStatus = Status.ready ∧ s1.wakeAttempts = 0
    ∧ (checkServerHealth ProbeOutcome.success t).1.messages = [welcomeBack]
    ∧ (checkServerHealth ProbeOutcome.success t).1.serverStatus = Status.ready := by
  unfold wakeUpServer at hw
  have h := wakeLoopGo_some_true probes 0 _ s1 _ tr1 hw
  exact ⟨h.1, h.2.1, h.2.2, by simp [checkServerHealth, ht], by simp [checkServerHealth, ht]⟩

/-- The state a successful first probe produces from `initialState`. -/
def wokenState : AppState :=
  { initialState with serverStatus := Status.ready, messages := [welcomeWake] }

/-- Witness for C10: an immediately successful cycle from the initial
state, and a `checkServerHealth` success from the initial (`'checking'`)
state. -/
theorem ready_transition_replaces_messages_witness :
    wokenState.messages = [welcomeWake] ∧ wokenState.serverStatus = Status.ready
    ∧ wokenState.wakeAttempts = 0
    ∧ (checkServerHealth ProbeOutcome.success initialState).1.messages = [welcomeBack]
    ∧ (checkServerHealth ProbeOutcome.success initialState).1.serverStatus = Status.ready :=
  ready_transition_replaces_messages [ProbeOutcome.success] initialState wokenState
    { delays := [], wakeTriggerCalls := 0 } (by decide) initialState (by decide)

end AiAgentUi
